import Mathlib

/-!
Shallow embedding of the QuestWeaver semantic memory store
(`src/Backend/chroma_connection.py`) and the event-extraction heuristics
(`src/Backend/story_generator.py`), together with theorems settling the
spec's claims about them.

The embedding/vector-index backends are external capabilities: every call
into them is modelled as an explicit parameter (a candidate list, or an
`Except` value whose `.error` arm models the Python call raising).
Metadata dictionaries are insertion-ordered association lists with
last-binding-wins lookup, matching Python's dict-literal merge semantics.
Text processed character-by-character (the extraction heuristics) is
modelled as `List Char` with faithful translations of the Python string
primitives used by the source.
-/

namespace QuestWeaver

/-- A document as held by the vector index and returned by
`similarity_search`: page content plus a string-keyed metadata dict. -/
structure Doc where
  content : String
  metadata : List (String × String)
deriving DecidableEq

/-- Python `dict.get(key)` over the association-list model: the value of the
last binding of `key` (later insertions override earlier ones, as in a
Python dict literal with `**` merge), or `none` when absent. -/
def dictGet (d : List (String × String)) (k : String) : Option String :=
  ((d.filter (fun p => p.1 == k)).getLast?).map (·.2)

/-- Python truthiness of an `Optional[List[str]]`: `None` and `[]` are
falsy, a non-empty list is truthy. -/
def truthy : Option (List String) → Bool
  | none => false
  | some l => !l.isEmpty

/-- Python `metadata.get(key) in allow_list` where the lookup may return
`None` (which is never a member of a list of strings). -/
def optMem (v : Option String) : Option (List String) → Bool
  | none => false
  | some l =>
    match v with
    | some s => l.contains s
    | none => false

/-- The in-process candidate filter of `MemoryManager.retrieve_memories`
(`chroma_connection.py` lines 169-183), one `continue` guard per branch:
the document must match the `(user_id, chat_id)` scope; if `memory_types`
is truthy the document's `memory_type` must be in it; if `include_roles`
is truthy the document's `role` must be in it. -/
def passesFilters (user_id chat_id : String)
    (memory_types include_roles : Option (List String)) (doc : Doc) : Bool :=
  if dictGet doc.metadata "user_id" != some user_id ||
      dictGet doc.metadata "chat_id" != some chat_id then
    false
  else if truthy memory_types &&
      !(optMem (dictGet doc.metadata "memory_type") memory_types) then
    false
  else if truthy include_roles &&
      !(optMem (dictGet doc.metadata "role") include_roles) then
    false
  else true

/-- The collection loop of `retrieve_memories` (lines 168-189): walk the
candidates in order, skip documents failing the filters (`continue`),
append passing ones, and `break` as soon as `k` have been collected (the
length check sits right after the append, so it only runs on a match).
`count` is `len(filtered_docs)` accumulated so far. -/
def retrieveLoop (pred : Doc → Bool) (k : Nat) (count : Nat) : List Doc → List Doc
  | [] => []
  | d :: ds =>
    if pred d then
      if count + 1 ≥ k then [d]
      else d :: retrieveLoop pred k (count + 1) ds
    else retrieveLoop pred k count ds

/-- `MemoryManager.retrieve_memories` (lines 150-196). `search` models the
vector index's `similarity_search` as a function from the requested
candidate count to either a raised exception (`.error`) or a candidate
list; the code requests `k * 10` candidates with no pushed-down filter,
filters in-process, and returns `[]` if anything in the `try` block
raises. -/
def retrieve_memories (search : Nat → Except String (List Doc))
    (user_id chat_id : String) (k : Nat)
    (memory_types include_roles : Option (List String)) : List Doc :=
  match search (k * 10) with
  | .error _ => []
  | .ok docs =>
      retrieveLoop (passesFilters user_id chat_id memory_types include_roles) k 0 docs

/-- The scope check of `get_recent_memories` (lines 217-218, and 237-238 in
the fallback): metadata `user_id` and `chat_id` must both match. -/
def scopeMatch (user_id chat_id : String) (doc : Doc) : Bool :=
  dictGet doc.metadata "user_id" == some user_id &&
    dictGet doc.metadata "chat_id" == some chat_id

/-- The collection loop of `get_recent_memories` (lines 214-221, and the
structurally identical fallback loop at 233-241): append in-scope documents
in candidate order, checking `len(filtered_docs) >= limit` at the end of
every iteration (match or not). No sorting of any kind is performed. -/
def recentLoop (pred : Doc → Bool) (limit count : Nat) : List Doc → List Doc
  | [] => []
  | d :: ds =>
    if pred d then
      if count + 1 ≥ limit then [d]
      else d :: recentLoop pred limit (count + 1) ds
    else
      if count ≥ limit then []
      else recentLoop pred limit count ds

/-- `MemoryManager.get_recent_memories` (lines 198-248): similarity search
for the fixed query string `"recent conversation"` requesting `limit * 3`
candidates, then the in-scope truncating loop; if that search raises, fall
back to a raw `collection.get()` dump (`collectionGet`) filtered by the
same loop; if the fallback raises too, return `[]`. The result keeps the
candidate order handed back by the index — the timestamps in the metadata
are never consulted. -/
def get_recent_memories (search : Nat → Except String (List Doc))
    (collectionGet : Except String (List Doc))
    (user_id chat_id : String) (limit : Nat) : List Doc :=
  match search (limit * 3) with
  | .ok docs => recentLoop (scopeMatch user_id chat_id) limit 0 docs
  | .error _ =>
    match collectionGet with
    | .ok allDocs => recentLoop (scopeMatch user_id chat_id) limit 0 allDocs
    | .error _ => []

/-- One record as stored in the index by `store_memory`: id, document text,
metadata. -/
structure StoredRec where
  id : String
  content : String
  metadata : List (String × String)
deriving DecidableEq

/-- The id generated by `store_memory` (line 134):
`f"{chat_id}_{role}_{int(time.time())}"` — whole-second granularity, no
sub-second entropy and no sequence counter. -/
def genMemoryId (chat_id role : String) (now : Nat) : String :=
  chat_id ++ "_" ++ role ++ "_" ++ toString now

/-- The metadata dict built by `store_memory` (lines 124-131): the five
core fields first, then `additional_metadata` splatted in after them, so a
caller-supplied binding for a core key overrides the core field under
last-binding-wins lookup. -/
def storeMetadata (user_id chat_id role memory_type : String) (now : Nat)
    (additional : List (String × String)) : List (String × String) :=
  [("user_id", user_id), ("chat_id", chat_id), ("role", role),
   ("memory_type", memory_type), ("timestamp", toString now)] ++ additional

/-- `MemoryManager.store_memory` (lines 112-148): build the metadata and
id, write the record through `vectorstore.add_texts` (`writeOk = false`
models that call raising, in which case the exception is logged and
re-raised), and return the id. There is no validation of `content`
anywhere on this path. -/
def store_memory (writeOk : Bool)
    (content user_id chat_id role memory_type : String)
    (additional : List (String × String)) (now : Nat)
    (index : List StoredRec) : Except String (String × List StoredRec) :=
  let metadata := storeMetadata user_id chat_id role memory_type now additional
  let memory_id := genMemoryId chat_id role now
  if writeOk then
    .ok (memory_id, index ++ [⟨memory_id, content, metadata⟩])
  else
    .error "Failed to store memory"

/-- The id returned by a `store_memory` call, when it succeeded. -/
def storedId : Except String (String × List StoredRec) → Option String
  | .ok (i, _) => some i
  | .error _ => none

/-- `MemoryManager.delete_chat_memories` (lines 250-286). Primary path
(`primaryOk = true`): a single delete-by-filter call removing every record
whose metadata `chat_id` equals the target, then `return True`. If that
call raises, the fallback queries up to 1000 candidates (`queryResult`;
its `.error` arm models the fallback query raising as well), collects the
ids whose metadata `chat_id` matches, deletes by that id list only when it
is non-empty, and returns `True`; if the fallback raised, returns `False`.
The result pairs the returned boolean with the index contents after the
call. -/
def delete_chat_memories (primaryOk : Bool)
    (queryResult : Except String (List StoredRec))
    (index : List StoredRec) (chat_id : String) : Bool × List StoredRec :=
  if primaryOk then
    (true, index.filter (fun r => !(dictGet r.metadata "chat_id" == some chat_id)))
  else
    match queryResult with
    | .ok candidates =>
        let idsToDelete := (candidates.filter
          (fun r => dictGet r.metadata "chat_id" == some chat_id)).map (·.id)
        if idsToDelete.isEmpty then (true, index)
        else (true, index.filter (fun r => !(idsToDelete.contains r.id)))
    | .error _ => (false, index)

/-! ### Event extraction (`story_generator.py`)

The Python string primitives used by `_extract_key_events` are modelled
over `List Char`. -/

/-- Python `str.split(sep)` for a one-character separator: split at every
occurrence of `sep`, keeping empty pieces. -/
def splitOnChar (sep : Char) : List Char → List (List Char)
  | [] => [[]]
  | c :: cs =>
    let rest := splitOnChar sep cs
    if c == sep then [] :: rest
    else
      match rest with
      | [] => [[c]]
      | r :: rs => (c :: r) :: rs

/-- Python `str.strip()`: drop whitespace from both ends. -/
def stripChars (l : List Char) : List Char :=
  ((l.dropWhile Char.isWhitespace).reverse.dropWhile Char.isWhitespace).reverse

/-- Python `str.lower()`. -/
def lowerChars (l : List Char) : List Char := l.map Char.toLower

/-- Python `needle in haystack`: substring containment. -/
def containsSub (pat : List Char) : List Char → Bool
  | [] => pat.isPrefixOf []
  | c :: cs => pat.isPrefixOf (c :: cs) || containsSub pat cs

/-- The plot-progress keyword list of `_extract_key_events` (line 104). -/
def eventKeywords : List (List Char) :=
  ["meets".data, "finds".data, "discovers".data, "enters".data,
   "defeats".data, "encounters".data]

/-- One extracted event dict:
`{"memory_type": ..., "description": ...}`. -/
structure Event where
  memory_type : String
  description : List Char
deriving DecidableEq

/-- The per-line classification applied by `_extract_key_events` when
`role == "assistant"` (`story_generator.py` lines 96-109): strip the line;
a line starting and ending with `**` yields a `lore` record
(`"Story element: <line>"`); otherwise (`elif`) a line whose lowercased
form contains one of the plot-progress keywords yields an `event` record
(`"Story event: <line>"`); any other line yields nothing. -/
def classifyAssistantLine (line0 : List Char) : List Event :=
  let line := stripChars line0
  if "**".data.isPrefixOf line && "**".data.isSuffixOf line then
    [⟨"lore", "Story element: ".data ++ line⟩]
  else if eventKeywords.any (fun kw => containsSub kw (lowerChars line)) then
    [⟨"event", "Story event: ".data ++ line⟩]
  else []

/-- `StoryGenerator._extract_key_events` (`story_generator.py` lines
82-111): `role == "user"` yields exactly one `action` record with
description `"Player action: <content>"`; `role == "assistant"` splits the
content on newlines and classifies each line; any other role yields `[]`. -/
def extract_key_events (content : List Char) (role : String) : List Event :=
  if role == "user" then
    [⟨"action", "Player action: ".data ++ content⟩]
  else if role == "assistant" then
    (splitOnChar '\n' content).flatMap classifyAssistantLine
  else []

/-! ### Structural lemmas about the collection loops -/

/-- The `retrieve_memories` loop collects, in order, the first
`k - count` candidates passing the filter. -/
theorem retrieveLoop_eq_filter_take (pred : Doc → Bool) :
    ∀ (l : List Doc) (k count : Nat), count < k →
      retrieveLoop pred k count l = (l.filter pred).take (k - count) := by
  intro l
  induction l with
  | nil => intro k count _; simp [retrieveLoop]
  | cons d ds ih =>
    intro k count hck
    by_cases hp : pred d = true
    · by_cases hk : count + 1 ≥ k
      · have hkc : k - count = 1 := by omega
        simp [retrieveLoop, hp, hk, List.filter_cons, hkc]
      · have hkc : k - count = (k - (count + 1)) + 1 := by omega
        simp [retrieveLoop, hp, hk, List.filter_cons, hkc,
          ih k (count + 1) (by omega)]
    · have hp' : pred d = false := by simpa using hp
      simp [retrieveLoop, hp', List.filter_cons, ih k count hck]

/-- The `get_recent_memories` loop collects, in order, the first
`limit - count` candidates passing the scope check. -/
theorem recentLoop_eq_filter_take (pred : Doc → Bool) :
    ∀ (l : List Doc) (limit count : Nat), count < limit →
      recentLoop pred limit count l = (l.filter pred).take (limit - count) := by
  intro l
  induction l with
  | nil => intro limit count _; simp [recentLoop]
  | cons d ds ih =>
    intro limit count hck
    have hnb : ¬ count ≥ limit := by omega
    by_cases hp : pred d = true
    · by_cases hk : count + 1 ≥ limit
      · have hkc : limit - count = 1 := by omega
        simp [recentLoop, hp, hk, List.filter_cons, hkc]
      · have hkc : limit - count = (limit - (count + 1)) + 1 := by omega
        simp [recentLoop, hp, hk, List.filter_cons, hkc,
          ih limit (count + 1) (by omega)]
    · have hp' : pred d = false := by simpa using hp
      simp [recentLoop, hp', hnb, List.filter_cons, ih limit count hck]

/-- Every document emitted by the `retrieve_memories` loop passed the
filter predicate. -/
theorem pred_of_mem_retrieveLoop {pred : Doc → Bool} :
    ∀ {l : List Doc} {k count : Nat} {d : Doc},
      d ∈ retrieveLoop pred k count l → pred d = true := by
  intro l
  induction l with
  | nil => intro k count d h; simp [retrieveLoop] at h
  | cons e es ih =>
    intro k count d h
    by_cases hp : pred e = true
    · by_cases hk : count + 1 ≥ k
      · simp [retrieveLoop, hp, hk] at h
        subst h; exact hp
      · simp [retrieveLoop, hp, hk] at h
        rcases h with h | h
        · subst h; exact hp
        · exact ih h
    · have hp' : pred e = false := by simpa using hp
      simp [retrieveLoop, hp'] at h
      exact ih h

/-- Every document emitted by the `get_recent_memories` loop passed the
scope predicate. -/
theorem pred_of_mem_recentLoop {pred : Doc → Bool} :
    ∀ {l : List Doc} {limit count : Nat} {d : Doc},
      d ∈ recentLoop pred limit count l → pred d = true := by
  intro l
  induction l with
  | nil => intro limit count d h; simp [recentLoop] at h
  | cons e es ih =>
    intro limit count d h
    by_cases hp : pred e = true
    · by_cases hk : count + 1 ≥ limit
      · simp [recentLoop, hp, hk] at h
        subst h; exact hp
      · simp [recentLoop, hp, hk] at h
        rcases h with h | h
        · subst h; exact hp
        · exact ih h
    · have hp' : pred e = false := by simpa using hp
      by_cases hb : count ≥ limit
      · simp [recentLoop, hp', hb] at h
      · simp [recentLoop, hp', hb] at h
        exact ih h

/-- A document passing `passesFilters` matches the query scope. -/
theorem passesFilters_scope {u c : String} {mt ir : Option (List String)} {d : Doc}
    (h : passesFilters u c mt ir d = true) :
    dictGet d.metadata "user_id" = some u ∧ dictGet d.metadata "chat_id" = some c := by
  by_cases hu : dictGet d.metadata "user_id" = some u
  · by_cases hc : dictGet d.metadata "chat_id" = some c
    · exact ⟨hu, hc⟩
    · rw [passesFilters] at h
      simp [hu, hc] at h
  · rw [passesFilters] at h
    simp [hu] at h

/-- A document passing `scopeMatch` matches the query scope. -/
theorem scopeMatch_scope {u c : String} {d : Doc} (h : scopeMatch u c d = true) :
    dictGet d.metadata "user_id" = some u ∧ dictGet d.metadata "chat_id" = some c := by
  simpa [scopeMatch] using h

/-! ### Claim theorems -/

/-- C1 (Scope isolation): a document whose metadata owner scope does not
match the query scope `(u2, c2)` — its `user_id` differs or its `chat_id`
differs — never appears in the output of `retrieve_memories` or of
`get_recent_memories` (on the similarity path and on the get-all fallback
alike), regardless of which candidates the vector index hands back. -/
theorem C1_scope_isolation
    (search : Nat → Except String (List Doc)) (cget : Except String (List Doc))
    (u2 c2 : String) (k limit : Nat) (mt ir : Option (List String)) (d : Doc)
    (h : dictGet d.metadata "user_id" ≠ some u2 ∨
         dictGet d.metadata "chat_id" ≠ some c2) :
    d ∉ retrieve_memories search u2 c2 k mt ir ∧
    d ∉ get_recent_memories search cget u2 c2 limit := by
  constructor
  · intro hmem
    unfold retrieve_memories at hmem
    cases hs : search (k * 10) with
    | error e => rw [hs] at hmem; simp at hmem
    | ok docs =>
        rw [hs] at hmem
        have hsc := passesFilters_scope (pred_of_mem_retrieveLoop hmem)
        rcases h with h | h
        · exact h hsc.1
        · exact h hsc.2
  · intro hmem
    unfold get_recent_memories at hmem
    cases hs : search (limit * 3) with
    | ok docs =>
        rw [hs] at hmem
        have hsc := scopeMatch_scope (pred_of_mem_recentLoop hmem)
        rcases h with h | h
        · exact h hsc.1
        · exact h hsc.2
    | error e =>
        rw [hs] at hmem
        cases hc : cget with
        | ok allDocs =>
            rw [hc] at hmem
            have hsc := scopeMatch_scope (pred_of_mem_recentLoop hmem)
            rcases h with h | h
            · exact h hsc.1
            · exact h hsc.2
        | error e2 => rw [hc] at hmem; simp at hmem

/-- Witness for C1: a record owned by `("u1","c1")` is returned neither by
a relevance query nor by a recency query scoped to `("u2","c1")`, even
when the index hands it back as a candidate. -/
theorem C1_scope_isolation_witness :
    (⟨"m", [("user_id", "u1"), ("chat_id", "c1")]⟩ : Doc) ∉
        retrieve_memories
          (fun _ => .ok [⟨"m", [("user_id", "u1"), ("chat_id", "c1")]⟩])
          "u2" "c1" 5 none none ∧
    (⟨"m", [("user_id", "u1"), ("chat_id", "c1")]⟩ : Doc) ∉
        get_recent_memories
          (fun _ => .ok [⟨"m", [("user_id", "u1"), ("chat_id", "c1")]⟩])
          (.ok []) "u2" "c1" 3 :=
  C1_scope_isolation _ _ "u2" "c1" 5 3 none none _ (Or.inl (by decide))

/-- C2 (code behavior at the failing input): `get_recent_memories` never
sorts by `created_at`/timestamp. With three in-scope candidates carrying
timestamps 10, 30, 20 — in that index order — and `limit = 2`, it returns
the timestamp-10 and timestamp-30 records in index order, not the
`[30, 20]` that a created_at-descending sort (the claim) requires. -/
theorem C2_get_recent_not_sorted_by_created_at :
    get_recent_memories
        (fun _ => .ok
          [⟨"m10", [("user_id", "u"), ("chat_id", "c"), ("timestamp", "10")]⟩,
           ⟨"m30", [("user_id", "u"), ("chat_id", "c"), ("timestamp", "30")]⟩,
           ⟨"m20", [("user_id", "u"), ("chat_id", "c"), ("timestamp", "20")]⟩])
        (.ok []) "u" "c" 2
      = [⟨"m10", [("user_id", "u"), ("chat_id", "c"), ("timestamp", "10")]⟩,
         ⟨"m30", [("user_id", "u"), ("chat_id", "c"), ("timestamp", "30")]⟩] ∧
    get_recent_memories
        (fun _ => .ok
          [⟨"m10", [("user_id", "u"), ("chat_id", "c"), ("timestamp", "10")]⟩,
           ⟨"m30", [("user_id", "u"), ("chat_id", "c"), ("timestamp", "30")]⟩,
           ⟨"m20", [("user_id", "u"), ("chat_id", "c"), ("timestamp", "20")]⟩])
        (.ok []) "u" "c" 2
      ≠ [⟨"m30", [("user_id", "u"), ("chat_id", "c"), ("timestamp", "30")]⟩,
         ⟨"m20", [("user_id", "u"), ("chat_id", "c"), ("timestamp", "20")]⟩] := by
  constructor
  · decide
  · decide

/-- C3 (Degrade-not-fail): if the similarity search (embedding provider or
vector index) raises inside `retrieve_memories`, the call returns the
empty list; the embedded function is total, so no error reaches the
caller. -/
theorem C3_retrieve_degrades_to_empty
    (search : Nat → Except String (List Doc)) (u c : String) (k : Nat)
    (mt ir : Option (List String)) (msg : String)
    (h : search (k * 10) = .error msg) :
    retrieve_memories search u c k mt ir = [] := by
  unfold retrieve_memories
  rw [h]

/-- Witness for C3 with a concretely failing embedding dependency. -/
theorem C3_retrieve_degrades_to_empty_witness :
    retrieve_memories (fun _ => .error "embedding failure") "u" "c" 5 none none
      = [] :=
  C3_retrieve_degrades_to_empty _ "u" "c" 5 none none "embedding failure" rfl

/-- C4 counterexample: `store_memory` called with `content = ""` does not
fail with an `InvalidInput` error — it writes a record with empty content
to the index and returns the generated id. -/
theorem C4_empty_content_not_rejected :
    store_memory true "" "u" "c" "user" "general" [] 100 []
      = .ok ("c_user_100",
          [⟨"c_user_100", "",
            [("user_id", "u"), ("chat_id", "c"), ("role", "user"),
             ("memory_type", "general"), ("timestamp", "100")]⟩]) := rfl

/-- C4 amended: `store_memory` performs no validation of `content` at all;
for any arguments (with the index write succeeding) the empty string is
stored exactly like any other content and the generated id is returned. -/
theorem C4_store_no_content_validation
    (u c r m : String) (extra : List (String × String)) (now : Nat)
    (index : List StoredRec) :
    store_memory true "" u c r m extra now index
      = .ok (genMemoryId c r now,
          index ++ [⟨genMemoryId c r now, "", storeMetadata u c r m now extra⟩]) :=
  rfl

/-- C5 counterexample: two store calls for the same `(chat_id, role)` in
the same wall-clock second — here two different contents at second 100 —
produce the identical id `"c_user_100"`, not distinct ids. -/
theorem C5_same_second_id_collision :
    storedId (store_memory true "go north" "u" "c" "user" "general" [] 100 [])
        = some "c_user_100" ∧
    storedId (store_memory true "look around" "u" "c" "user" "general" [] 100 [])
        = some "c_user_100" :=
  ⟨rfl, rfl⟩

/-- C5 amended: the generated id is a pure function of
`(chat_id, role, whole second)` — independent of content, owner, memory
type, extra metadata and prior index state — so two stores for the same
`(conversation, role)` within the same second always collide on id. -/
theorem C5_id_depends_only_on_chat_role_second
    (content1 content2 u1 u2 m1 m2 : String)
    (e1 e2 : List (String × String)) (c r : String) (now : Nat)
    (i1 i2 : List StoredRec) :
    storedId (store_memory true content1 u1 c r m1 e1 now i1)
      = storedId (store_memory true content2 u2 c r m2 e2 now i2) := rfl

/-- C6 (Stable filtering): for `k ≥ 1` (the data model requires `k > 0`),
the list returned by `retrieve_memories` over a candidate list is exactly
the first up-to-`k` elements, in unchanged relative order, of the
candidates restricted to the scope/kind/role predicate — the in-process
pass never re-ranks or reorders. -/
theorem C6_stable_filtering
    (docs : List Doc) (u c : String) (k : Nat) (mt ir : Option (List String))
    (hk : 1 ≤ k) :
    retrieve_memories (fun _ => .ok docs) u c k mt ir
      = (docs.filter (passesFilters u c mt ir)).take k := by
  unfold retrieve_memories
  simpa using retrieveLoop_eq_filter_take (passesFilters u c mt ir) docs k 0 (by omega)

/-- Witness for C6 at a concrete overfetched candidate list: the two
in-scope `action` records survive, in candidate order, out-of-scope and
wrong-kind candidates are dropped. -/
theorem C6_stable_filtering_witness :
    retrieve_memories
        (fun _ => .ok
          [⟨"a1", [("user_id", "u"), ("chat_id", "c"), ("memory_type", "action")]⟩,
           ⟨"x", [("user_id", "v"), ("chat_id", "c"), ("memory_type", "action")]⟩,
           ⟨"a2", [("user_id", "u"), ("chat_id", "c"), ("memory_type", "action")]⟩,
           ⟨"y", [("user_id", "u"), ("chat_id", "c"), ("memory_type", "lore")]⟩])
        "u" "c" 5 (some ["action"]) none
      = ([⟨"a1", [("user_id", "u"), ("chat_id", "c"), ("memory_type", "action")]⟩,
          ⟨"x", [("user_id", "v"), ("chat_id", "c"), ("memory_type", "action")]⟩,
          ⟨"a2", [("user_id", "u"), ("chat_id", "c"), ("memory_type", "action")]⟩,
          ⟨"y", [("user_id", "u"), ("chat_id", "c"), ("memory_type", "lore")]⟩].filter
            (passesFilters "u" "c" (some ["action"]) none)).take 5 :=
  C6_stable_filtering _ "u" "c" 5 (some ["action"]) none (by decide)

/-- C7 (k-bound): for every `k > 0` and arbitrary index behavior
(candidate lists of any size, or a raised exception), the list returned by
`retrieve_memories` has length at most `k`. -/
theorem C7_k_bound
    (search : Nat → Except String (List Doc)) (u c : String) (k : Nat)
    (mt ir : Option (List String)) (hk : 0 < k) :
    (retrieve_memories search u c k mt ir).length ≤ k := by
  unfold retrieve_memories
  cases hs : search (k * 10) with
  | error e => simp
  | ok docs =>
      show (retrieveLoop (passesFilters u c mt ir) k 0 docs).length ≤ k
      rw [retrieveLoop_eq_filter_take (passesFilters u c mt ir) docs k 0 (by omega),
        List.length_take]
      omega

/-- Witness for C7: `k = 1` against an index returning three candidates. -/
theorem C7_k_bound_witness :
    (retrieve_memories
        (fun _ => .ok
          [⟨"a", [("user_id", "u"), ("chat_id", "c")]⟩,
           ⟨"b", [("user_id", "u"), ("chat_id", "c")]⟩,
           ⟨"d", [("user_id", "u"), ("chat_id", "c")]⟩])
        "u" "c" 1 none none).length ≤ 1 :=
  C7_k_bound _ "u" "c" 1 none none (by decide)

/-- C8 (Idempotent delete): `delete_chat_memories` on a conversation with
zero stored records returns `true` and leaves the index unchanged — on the
primary delete-by-filter path, and on the fallback path whenever the
primary raised but the fallback's broad query succeeds and returns
candidates drawn from the index. -/
theorem C8_delete_empty_conversation_idempotent
    (primaryOk : Bool) (queryResult : Except String (List StoredRec))
    (index : List StoredRec) (c : String)
    (hscope : ∀ r ∈ index, dictGet r.metadata "chat_id" ≠ some c)
    (hfb : primaryOk = false →
      ∃ l, queryResult = .ok l ∧ ∀ r ∈ l, r ∈ index) :
    delete_chat_memories primaryOk queryResult index c = (true, index) := by
  cases primaryOk with
  | true =>
      unfold delete_chat_memories
      simp only [if_pos]
      have : index.filter (fun r => !(dictGet r.metadata "chat_id" == some c))
          = index := by
        apply List.filter_eq_self.mpr
        intro r hr
        simpa using hscope r hr
      rw [this]
  | false =>
      obtain ⟨l, hq, hl⟩ := hfb rfl
      unfold delete_chat_memories
      rw [hq]
      have hempty :
          l.filter (fun r => dictGet r.metadata "chat_id" == some c) = [] := by
        apply List.filter_eq_nil_iff.mpr
        intro r hr
        simpa using hscope r (hl r hr)
      simp [hempty]

/-- Witness for C8, exercising the fallback path: the index holds one
record of another conversation, the broad query returns it, and deleting
conversation `"gone"` succeeds without touching the index. -/
theorem C8_delete_empty_conversation_idempotent_witness :
    delete_chat_memories false
        (.ok [⟨"c2_user_5", "x", [("chat_id", "c2")]⟩])
        [⟨"c2_user_5", "x", [("chat_id", "c2")]⟩] "gone"
      = (true, [⟨"c2_user_5", "x", [("chat_id", "c2")]⟩]) :=
  C8_delete_empty_conversation_idempotent false _ _ "gone" (by decide)
    (fun _ => ⟨_, rfl, by decide⟩)

/-- C9 (Classification): `extract_key_events` with role `"user"` returns,
for every non-empty content, exactly one `action` record with description
`"Player action: <content>"`; with role `"assistant"` the line
`"The hero discovers a hidden cave."` (containing the plot-progress
keyword `"discovers"`) yields an `event` record, and the bold-wrapped line
`"**The Kingdom of Eldoria**"` yields a `lore` record. -/
theorem C9_classification :
    (∀ content : List Char, content ≠ [] →
        extract_key_events content "user"
          = [⟨"action", "Player action: ".data ++ content⟩]) ∧
    (∃ e ∈ extract_key_events "The hero discovers a hidden cave.".data "assistant",
        e.memory_type = "event") ∧
    (∃ e ∈ extract_key_events "**The Kingdom of Eldoria**".data "assistant",
        e.memory_type = "lore") := by
  refine ⟨fun content _ => rfl, by decide, by decide⟩

/-- Witness for C9 at the concrete user action `"go north"`. -/
theorem C9_classification_witness :
    extract_key_events "go north".data "user"
      = [⟨"action", "Player action: ".data ++ "go north".data⟩] :=
  C9_classification.1 "go north".data (by decide)

/-- C10 (implicit): `additional_metadata` is merged after the core fields,
so a caller-supplied `"user_id"` binding overrides the core scope: the
stored record's effective `user_id` is `u2`, the record is retrievable
under scope `(u2, c)` and invisible under the `(u1, c)` the caller passed,
whenever `u2 ≠ u1`. -/
theorem C10_extra_metadata_overrides_scope
    (u1 u2 c r m content : String) (now : Nat) (h : u2 ≠ u1) :
    dictGet (storeMetadata u1 c r m now [("user_id", u2)]) "user_id" = some u2 ∧
    retrieve_memories
        (fun _ => .ok [⟨content, storeMetadata u1 c r m now [("user_id", u2)]⟩])
        u2 c 5 none none
      = [⟨content, storeMetadata u1 c r m now [("user_id", u2)]⟩] ∧
    retrieve_memories
        (fun _ => .ok [⟨content, storeMetadata u1 c r m now [("user_id", u2)]⟩])
        u1 c 5 none none
      = [] := by
  have hu : dictGet (storeMetadata u1 c r m now [("user_id", u2)]) "user_id"
      = some u2 := by
    simp [storeMetadata, dictGet]
  have hc : dictGet (storeMetadata u1 c r m now [("user_id", u2)]) "chat_id"
      = some c := by
    simp [storeMetadata, dictGet]
  refine ⟨hu, ?_, ?_⟩
  · have hpred : passesFilters u2 c none none
        ⟨content, storeMetadata u1 c r m now [("user_id", u2)]⟩ = true := by
      simp [passesFilters, hu, hc, truthy]
    simp [retrieve_memories, retrieveLoop, hpred]
  · have hpred : passesFilters u1 c none none
        ⟨content, storeMetadata u1 c r m now [("user_id", u2)]⟩ = false := by
      simp [passesFilters, hu, hc, truthy]
      exact fun hh => absurd hh h
    simp [retrieve_memories, retrieveLoop, hpred]

/-- Witness for C10 with concrete distinct users. -/
theorem C10_extra_metadata_overrides_scope_witness :
    dictGet (storeMetadata "u1" "c" "user" "general" 100 [("user_id", "u2")])
        "user_id" = some "u2" ∧
    retrieve_memories
        (fun _ => .ok
          [⟨"x", storeMetadata "u1" "c" "user" "general" 100 [("user_id", "u2")]⟩])
        "u2" "c" 5 none none
      = [⟨"x", storeMetadata "u1" "c" "user" "general" 100 [("user_id", "u2")]⟩] ∧
    retrieve_memories
        (fun _ => .ok
          [⟨"x", storeMetadata "u1" "c" "user" "general" 100 [("user_id", "u2")]⟩])
        "u1" "c" 5 none none
      = [] :=
  C10_extra_metadata_overrides_scope "u1" "u2" "c" "user" "general" "x" 100
    (by decide)

end QuestWeaver
